import Mathlib

/-!
Verification development for the financial-document metric-extraction core
(`modules/processor.py` and `modules/utils.py`).  The Python functions are
shallowly embedded as executable Lean definitions over string grids; Python
floats are modelled by exact decimals (`PyNum`, a normalized
mantissa × 10^-exponent pair — every numeric literal occurring in the
checked examples is exactly representable in both binary floating point
and this model), Python `None` by `Option.none`, and an uncaught Python
exception by `Except.error`.

Modelling notes on character classes: Python's `\d`, `\s` and `str.strip`
operate on Unicode classes; the embedding uses ASCII digits and ASCII
whitespace, which agree with them on all ASCII input.  The spellings
`inf` / `nan` accepted by Python's `float()` are not representable in the
rational model and are treated as parse failures; no theorem below depends
on an input containing those spellings.
-/

/-- `startsL n h` : the character list `h` starts with `n`. -/
def startsL : List Char → List Char → Bool
  | [], _ => true
  | _ :: _, [] => false
  | a :: as, b :: bs => (a = b) && startsL as bs

/-- `hasSubL n h` : `n` occurs as a contiguous sublist of `h`. -/
def hasSubL (n : List Char) : List Char → Bool
  | [] => n.isEmpty
  | b :: bs => startsL n (b :: bs) || hasSubL n bs

/-- Python's substring test `needle in hay`. -/
def py_in (needle hay : String) : Bool :=
  hasSubL needle.toList hay.toList

/-- ASCII-lowercase every character, modelling `str.lower()` on ASCII text. -/
def lowerS (s : String) : String :=
  String.mk (s.toList.map Char.toLower)

/-- ASCII-uppercase every character, modelling `str.upper()` on ASCII text. -/
def upperS (s : String) : String :=
  String.mk (s.toList.map Char.toUpper)

/-- Strip leading and trailing whitespace from a character list
(models `str.strip()` on ASCII whitespace). -/
def trimL (cs : List Char) : List Char :=
  ((cs.dropWhile Char.isWhitespace).reverse.dropWhile Char.isWhitespace).reverse

/-- String form of `trimL`. -/
def pyStrip (s : String) : String :=
  String.mk (trimL s.toList)

/-- Code-point lexicographic order on character lists, as Python compares
strings. -/
def lexLtB : List Char → List Char → Bool
  | [], [] => false
  | [], _ :: _ => true
  | _ :: _, [] => false
  | a :: as, b :: bs => if a < b then true else if b < a then false else lexLtB as bs

/-- Python string `<`. -/
def strLtB (a b : String) : Bool := lexLtB a.toList b.toList

/-- `max` over a list of string keys, as Python's `max(d.keys())`:
`none` on the empty list, first maximal element otherwise. -/
def maxKey : List String → Option String
  | [] => none
  | k :: rest => some (rest.foldl (fun acc x => if strLtB acc x then x else acc) k)

/-- Lookup in an insertion-ordered association list (Python `dict` access). -/
def dget {α : Type} : List (String × α) → String → Option α
  | [], _ => none
  | p :: rest, k => if p.1 = k then some p.2 else dget rest k

/-- Update-or-append on an insertion-ordered association list
(Python `d[k] = v`). -/
def dinsert {α : Type} : List (String × α) → String → α → List (String × α)
  | [], k, v => [(k, v)]
  | p :: rest, k, v => if p.1 = k then (k, v) :: rest else p :: dinsert rest k v

/-- Numeric value of an ASCII digit character. -/
def digitVal (c : Char) : Nat := c.toNat - '0'.toNat

/-- Decimal value of a digit list. -/
def digitsToNat (ds : List Char) : Nat :=
  ds.foldl (fun n c => 10 * n + digitVal c) 0

/-- Consume a CPython `digitpart` (digits with single underscores allowed
between digits) after its first digit; returns the digits read (underscores
dropped) and the unconsumed remainder. -/
def dpGo : List Char → List Char → List Char × List Char
  | '_' :: d :: rest, acc =>
      if d.isDigit then dpGo rest (d :: acc) else (acc.reverse, '_' :: d :: rest)
  | d :: rest, acc =>
      if d.isDigit then dpGo rest (d :: acc) else (acc.reverse, d :: rest)
  | [], acc => (acc.reverse, [])

/-- Consume a CPython `digitpart`; fails unless the input starts with a
digit. -/
def takeDigitPart : List Char → Option (List Char × List Char)
  | c :: rest => if c.isDigit then some (dpGo rest [c]) else none
  | [] => none

/-- Exact decimal number `man / 10 ^ exp`, the value class of every string
the source can parse (decimal or scientific literals, scaled by powers of
ten).  Kept normalized (`exp = 0`, or `man` not divisible by ten) so that
structural equality coincides with numeric equality. -/
structure PyNum where
  man : Int
  exp : Nat
deriving DecidableEq, Repr

/-- Cancel factors of ten between mantissa and exponent. -/
def normNum : Int → Nat → Int × Nat
  | m, 0 => (m, 0)
  | m, s + 1 => if m % 10 = 0 then normNum (m / 10) s else (m, s + 1)

/-- Normalizing constructor for `PyNum`: the value `m / 10 ^ s`. -/
def pnMk (m : Int) (s : Nat) : PyNum :=
  ⟨(normNum m s).1, (normNum m s).2⟩

/-- Negation of an exact decimal. -/
def pnNeg (x : PyNum) : PyNum := pnMk (-x.man) x.exp

/-- Multiplication of an exact decimal by an integer (used for the
`K`/`M`/`B` suffix scaling `* 1e3`/`1e6`/`1e9`). -/
def pnScale (k : Int) (x : PyNum) : PyNum := pnMk (x.man * k) x.exp

/-- Assemble the value of a parsed float literal: integer digits, fraction
digits, decimal exponent and exponent sign. -/
def mkVal (ip fp : List Char) (ex : Nat) (pos : Bool) : PyNum :=
  let m0 : Int := Int.ofNat (digitsToNat ip * 10 ^ fp.length + digitsToNat fp)
  if pos then pnMk (m0 * 10 ^ ex) fp.length else pnMk m0 (fp.length + ex)

/-- Parse the exponent digits; the whole remainder must be consumed. -/
def expDigits (cs : List Char) : Option Nat :=
  match takeDigitPart cs with
  | some p => if p.2.isEmpty then some (digitsToNat p.1) else none
  | none => none

/-- Parse an optional exponent suffix (`e`/`E`, optional sign, digitpart)
and require the end of input, given the integer and fraction digits read
so far. -/
def pfExp (ip fp : List Char) : List Char → Option PyNum
  | [] => some (mkVal ip fp 0 true)
  | e :: r2 =>
      if e = 'e' || e = 'E' then
        match r2 with
        | '+' :: r3 => (expDigits r3).map (fun n => mkVal ip fp n true)
        | '-' :: r3 => (expDigits r3).map (fun n => mkVal ip fp n false)
        | _ => (expDigits r2).map (fun n => mkVal ip fp n true)
      else none

/-- Parse the unsigned body of a CPython float literal:
`digitpart [. [digitpart]]` or `. digitpart`, then an optional exponent. -/
def pfBody (cs : List Char) : Option PyNum :=
  match takeDigitPart cs with
  | some ipr =>
      match ipr.2 with
      | '.' :: r2 =>
          match takeDigitPart r2 with
          | some fpr => pfExp ipr.1 fpr.1 fpr.2
          | none => pfExp ipr.1 [] r2
      | r => pfExp ipr.1 [] r
  | none =>
      match cs with
      | '.' :: r2 =>
          match takeDigitPart r2 with
          | some fpr => pfExp [] fpr.1 fpr.2
          | none => none
      | _ => none

/-- Signed float body. -/
def pfSign : List Char → Option PyNum
  | '+' :: rest => pfBody rest
  | '-' :: rest => (pfBody rest).map pnNeg
  | cs => pfBody cs

/-- Model of Python's `float(s)` on a character list: strip surrounding
whitespace, optional sign, decimal or scientific literal.  `inf` and `nan`
spellings are treated as failures (see the header note). -/
def pyFloatL (cs : List Char) : Option PyNum :=
  pfSign (trimL cs)

/-- Model of Python's `float(s)` on strings. -/
def pyFloat (s : String) : Option PyNum :=
  pyFloatL s.toList

/-- Embedding of `modules/utils.py::parse_numeric` (lines 5-48):
empty input fails; commas and spaces are removed and the result stripped;
a fully parenthesized string is rewritten to a leading minus; a trailing
`K`/`M`/`B` scales the parsed prefix by 1e3/1e6/1e9; otherwise the whole
string is parsed as a float.  Any failure yields `none` (the source's
retry `float(text)` re-parses the same unmodified string and can never
succeed where the first attempt failed, so it is not a separate case). -/
def parse_numeric (text : String) : Option PyNum :=
  if text = "" then none
  else
    let cs0 := trimL (text.toList.filter (fun c => !(c = ',') && !(c = ' ')))
    let cs :=
      match cs0 with
      | '(' :: rest =>
          if rest.getLast? = some ')' then '-' :: rest.dropLast else '(' :: rest
      | _ => cs0
    match cs.getLast? with
    | some 'K' => (pyFloatL cs.dropLast).map (pnScale 1000)
    | some 'M' => (pyFloatL cs.dropLast).map (pnScale 1000000)
    | some 'B' => (pyFloatL cs.dropLast).map (pnScale 1000000000)
    | _ => pyFloatL cs

/-- Character class `[\d,\.]` of the source's numeric-token regex. -/
def isNumCh (c : Char) : Bool := c.isDigit || c = ',' || c = '.'

/-- Scanner for `re.findall(r"[-+]?\d[\d,\.]*", line)`: left-to-right,
non-overlapping; a token starts at a digit, or at a sign immediately
followed by a digit, and greedily extends over digits, commas and dots.
The accumulator holds the reversed characters of the token being read
(empty when outside a token).  The first argument is fuel, strictly
consumed on every step; a call with fuel exceeding the list length never
exhausts it. -/
def fnGo : Nat → List Char → List Char → List String
  | 0, _, acc => if acc.isEmpty then [] else [String.mk acc.reverse]
  | _ + 1, [], acc => if acc.isEmpty then [] else [String.mk acc.reverse]
  | fuel + 1, c :: rest, acc =>
      if acc.isEmpty then
        if c.isDigit then fnGo fuel rest [c]
        else if c = '+' || c = '-' then
          match rest with
          | d :: rest2 => if d.isDigit then fnGo fuel rest2 [d, c] else fnGo fuel rest []
          | [] => []
        else fnGo fuel rest []
      else
        if isNumCh c then fnGo fuel rest (c :: acc)
        else
          String.mk acc.reverse ::
            (if c = '+' || c = '-' then
              match rest with
              | d :: rest2 => if d.isDigit then fnGo fuel rest2 [d, c] else fnGo fuel rest []
              | [] => []
            else fnGo fuel rest [])

/-- `re.findall(r"[-+]?\d[\d,\.]*", s)` on a string. -/
def findNums (s : String) : List String := fnGo (s.toList.length + 1) s.toList []

/-- Embedding of `modules/processor.py::contains_number` (line 99): the
regex `[-+]?\d[\d,\.]*` matches somewhere in `s` exactly when `s` contains
a digit (sign and tail are optional), so the search reduces to digit
containment. -/
def contains_number (s : String) : Bool := s.toList.any Char.isDigit

/-- Worker for `str.splitlines()` restricted to the line breaks
`\n`, `\r\n` and `\r` (the source texts contain no exotic breaks). -/
def slGo : List Char → List Char → List String
  | [], acc => if acc.isEmpty then [] else [String.mk acc.reverse]
  | '\r' :: '\n' :: rest, acc => String.mk acc.reverse :: slGo rest []
  | '\n' :: rest, acc => String.mk acc.reverse :: slGo rest []
  | '\r' :: rest, acc => String.mk acc.reverse :: slGo rest []
  | c :: rest, acc => slGo rest (c :: acc)

/-- Python's `str.splitlines()` (no trailing empty line). -/
def pySplitlines (s : String) : List String := slGo s.toList []

/-- Embedding of `modules/processor.py::find_metric_in_text` (lines 28-48):
lower-case the text, and for each keyword in order collect every line that
contains the keyword and at least one numeric token, as
(stripped line, numeric tokens) pairs. -/
def find_metric_in_text (text : String) (keyword_list : List String) :
    List (String × List String) :=
  keyword_list.foldl (fun acc kw =>
    acc ++ (pySplitlines (lowerS text)).filterMap (fun line =>
      if py_in kw line then
        let nums := findNums line
        if nums.isEmpty then none else some (pyStrip line, nums)
      else none)) []

/-- A tabular grid handed to the core: `header` models the pandas column
labels (`t[0]` of an extracted table, or the Excel header row) and `rows`
the data rows as cell strings (`pd.DataFrame(t[1:], columns=t[0])` in
`process_documents`).  Ragged rows are representable; every cell access
the source performs positionally is modelled with a `""` default, matching
the scanner's skip-on-missing behavior (§7 of the spec's boundary). -/
structure Table where
  header : List String
  rows : List (List String)
deriving DecidableEq, Repr

/-- Worker for `re.sub(r"\(.*\)", "-", cell)`: at each `(` that is followed
by a `)` later on the same line (`.` does not cross `\n`), the greedy match
extends to the last such `)` and the whole match is replaced by `-`;
scanning resumes after it.  The first argument is fuel, strictly consumed
on every step; a call with fuel exceeding the list length never exhausts
it (the remainder is returned unchanged if it ever would). -/
def rpGo : Nat → List Char → List Char
  | 0, cs => cs
  | _ + 1, [] => []
  | fuel + 1, c :: rest =>
      if c = '(' then
        let seg := rest.takeWhile (fun d => !(d = '\n'))
        match seg.reverse.findIdx? (fun d => d = ')') with
        | some j => '-' :: rpGo fuel (rest.drop (seg.length - j))
        | none => '(' :: rpGo fuel rest
      else c :: rpGo fuel rest

/-- Cell preprocessing of `extract_multi_year_data` (lines 168-169):
`astype(str)` is the identity on cell strings, exact `"nan"` cells become
empty, and parenthesized spans are replaced by `-`. -/
def cellPre (s : String) : String :=
  let cs := (if s = "nan" then "" else s).toList
  String.mk (rpGo (cs.length + 1) cs)

/-- `re.search(r"\(.*\)", s)` succeeds: some `(` is followed by a `)`
later on the same line. -/
def psGo : List Char → Bool
  | [] => false
  | c :: rest =>
      (c = '(' && (rest.takeWhile (fun d => !(d = '\n'))).any (fun d => d = ')'))
        || psGo rest

/-- String form of `psGo`. -/
def parenSearch (s : String) : Bool := psGo s.toList

/-- First alternative `20\d{2}` of the year regex. -/
def alt1 : List Char → Option String
  | '2' :: '0' :: a :: b :: _ =>
      if a.isDigit && b.isDigit then some (String.mk ['2', '0', a, b]) else none
  | _ => none

/-- Second alternative `FY\s*\d{2}` of the year regex; the captured label
keeps the whitespace, as `group(2)` does. -/
def alt2 : List Char → Option String
  | 'F' :: 'Y' :: rest =>
      let ws := rest.takeWhile Char.isWhitespace
      match rest.dropWhile Char.isWhitespace with
      | a :: b :: _ =>
          if a.isDigit && b.isDigit then
            some (String.mk ('F' :: 'Y' :: (ws ++ [a, b])))
          else none
      | _ => none
  | _ => none

/-- Third alternative of the year regex: four digits, then a dash or a
slash, then two digits. -/
def alt3 : List Char → Option String
  | a :: b :: c :: d :: sep :: e :: f :: _ =>
      if a.isDigit && b.isDigit && c.isDigit && d.isDigit
          && (sep = '-' || sep = '/') && e.isDigit && f.isDigit then
        some (String.mk [a, b, c, d, sep, e, f])
      else none
  | _ => none

/-- Leftmost-position, left-to-right-alternative search over the three
year patterns (`20\d{2}`, then `FY\s*\d{2}`, then digits-dash-or-slash-
digits), returning the label `group(1) or group(2) or group(3)` of the
first match. -/
def ysGo : List Char → Option String
  | [] => none
  | c :: rest =>
      match alt1 (c :: rest) with
      | some y => some y
      | none =>
          match alt2 (c :: rest) with
          | some y => some y
          | none =>
              match alt3 (c :: rest) with
              | some y => some y
              | none => ysGo rest

/-- Year-pattern search of `extract_multi_year_data` (lines 174, 183). -/
def pyYearSearch (s : String) : Option String := ysGo s.toList

/-- The keyword catalog `METRIC_KEYWORDS` of `modules/processor.py`
(lines 12-23), in source order. -/
def METRIC_KEYWORDS : List (String × List String) :=
  [("revenue", ["revenue", "total revenue", "sales", "net sales"]),
   ("gross_profit", ["gross profit", "gross margin"]),
   ("operating_income", ["operating income", "operating profit"]),
   ("net_income", ["net income", "net profit", "profit for the year", "profit after tax"]),
   ("ebitda", ["ebitda"]),
   ("total_assets", ["total assets"]),
   ("total_liabilities", ["total liabilities"]),
   ("cash_and_equivalents", ["cash and cash equivalents", "cash and equivalents"]),
   ("cost_of_revenue", ["cost of revenue", "cost of sales", "cost of goods sold", "cogs"]),
   ("total_equity", ["total equity", "shareholders\x27 equity", "shareholders equity"])]

/-- Column-header pass of `read_numbers_from_tables` (lines 74-82) for one
metric and one table: among the columns whose lower-cased header contains
a keyword, each one holding a numeric-looking cell assigns the parse of
its first such cell; the last assignment survives.  Cells equal to `"nan"`
are blanked first (line 78); column access is positional, which agrees
with the source's by-label access whenever the lower-cased headers are
distinct. -/
def colAssign (kws : List String) (t : Table) : Option (Option PyNum) :=
  (((t.header.map lowerS).enum.filter
      (fun p => kws.any (fun kw => py_in kw p.2))).filterMap
    (fun p =>
      (t.rows.map (fun r =>
        let c := r.getD p.1 ""
        if c = "nan" then "" else c)).find? contains_number)).getLast?.map parse_numeric

/-- Row-label pass of `read_numbers_from_tables` (lines 85-93) for one
metric and one table: each row whose lower-cased first cell contains a
keyword and which holds a numeric-looking cell assigns the parse of its
first such cell (from the untransformed row); the last assignment
survives. -/
def rowAssign (kws : List String) (t : Table) : Option (Option PyNum) :=
  (t.rows.filterMap (fun r =>
    if kws.any (fun kw => py_in kw (lowerS (r.getD 0 ""))) then
      (r.find? contains_number).map parse_numeric
    else none)).getLast?

/-- Effect of one table on one metric's entry: the column pass runs first,
then the row-label pass, and a row-label assignment overwrites a column
assignment (lines 74-93). -/
def tableAssign (kws : List String) (t : Table) : Option (Option PyNum) :=
  match rowAssign kws t with
  | some p => some p
  | none => colAssign kws t

/-- Embedding of `modules/processor.py::read_numbers_from_tables`
(lines 53-94).  For each catalog metric in order, the last table whose
passes assigned a value supplies the entry.  A table with zero columns
makes `df2.iloc[:, 0]` (line 85) raise `IndexError` while the first metric
is processed, so the whole call errors in that case. -/
def read_numbers_from_tables (tables : List Table) :
    Except Unit (List (String × Option PyNum)) :=
  if tables.any (fun t => t.header.isEmpty) then .error ()
  else
    .ok (METRIC_KEYWORDS.filterMap (fun p =>
      ((tables.filterMap (tableAssign p.2)).getLast?).map (fun v => (p.1, v))))

/-- Year-column detection of `extract_multi_year_data` (lines 172-186):
collect (column index, year label) pairs from the raw column headers;
if none match and the table has rows, fall back to the first data row's
preprocessed cells. -/
def tableYearCols (t : Table) : List (Nat × String) :=
  let hd := t.header.enum.filterMap
    (fun p => (pyYearSearch p.2).map (fun y => (p.1, y)))
  if hd.isEmpty then
    match t.rows with
    | [] => []
    | r :: _ =>
        (r.map cellPre).enum.filterMap
          (fun p => (pyYearSearch p.2).map (fun y => (p.1, y)))
  else hd

/-- `yearly_data.setdefault(year, {})[metric] = value` (line 206). -/
def dinsert2 :
    List (String × List (String × PyNum)) → String → String → PyNum →
      List (String × List (String × PyNum))
  | [], y, m, v => [(y, [(m, v)])]
  | p :: rest, y, m, v =>
      if p.1 = y then (y, dinsert p.2 m v) :: rest
      else p :: dinsert2 rest y m v

/-- Row scanning of `extract_multi_year_data` (lines 192-207) for one
preprocessed row: the first catalog metric whose keyword occurs in the
lower-cased stripped row label receives, for every detected year column
in range with a non-blank cell, the parse of the cell with parentheses,
dollar signs and commas removed and a minus prepended when the
preprocessed cell still matches `\(.*\)`; only successful parses are
stored. -/
def rowStep (yc : List (Nat × String))
    (acc : List (String × List (String × PyNum))) (row : List String) :
    List (String × List (String × PyNum)) :=
  let rowT := row.map cellPre
  let label := pyStrip (lowerS (rowT.getD 0 ""))
  match METRIC_KEYWORDS.find? (fun p => p.2.any (fun kw => py_in kw label)) with
  | none => acc
  | some mp =>
      yc.foldl (fun acc2 cy =>
        let cell := rowT.getD cy.1 ""
        if cy.1 < rowT.length && !(pyStrip cell).isEmpty then
          let cl0 := pyStrip (String.mk (cell.toList.filter
            (fun c => !(c = '(' || c = ')' || c = '$' || c = ','))))
          let cl := if parenSearch cell then "-" ++ cl0 else cl0
          match parse_numeric cl with
          | some v => dinsert2 acc2 cy.2 mp.1 v
          | none => acc2
        else acc2) acc

/-- Embedding of `modules/processor.py::extract_multi_year_data`
(lines 151-209): per table, detect year columns (skipping the table when
none are found), then scan every row except the one at index 0 — the
source's `if row_idx == 0: continue` guard, which on the DataFrames built
by `process_documents` skips the first data row, the header living in the
column labels. -/
def extract_multi_year_data (tables : List Table) :
    List (String × List (String × PyNum)) :=
  tables.foldl (fun acc t =>
    let yc := tableYearCols t
    if yc.isEmpty then acc
    else t.rows.tail.foldl (rowStep yc) acc) []

/-- One cell of the currency table scan: `str.contains(r"₹|\$|€|£")`. -/
def cellHasSym (cell : String) : Bool :=
  py_in "₹" cell || py_in "$" cell || py_in "€" cell || py_in "£" cell

/-- `for s in symbols: if s in txt: return s` (lines 118-121). -/
def loopSyms (txt : String) : List String → Option String
  | [] => none
  | s :: rest => if py_in s txt then some s else loopSyms txt rest

/-- `for token in codes: if token in txt.lower(): return token.upper()`
(lines 122-124). -/
def loopCodes (txt : String) : List String → Option String
  | [] => none
  | c :: rest => if py_in c (lowerS txt) then some (upperS c) else loopCodes txt rest

/-- Embedding of `modules/processor.py::find_currency_in_document`
(lines 106-129): fixed-order symbol containment in the text, then
case-insensitive code containment, then a `"symbolic"` marker when any
table cell contains one of four symbols, else nothing. -/
def find_currency_in_document (raw_text : String) (tables : List Table) :
    Option String :=
  match loopSyms raw_text ["₹", "$", "€", "£", "¥"] with
  | some s => some s
  | none =>
      match loopCodes raw_text ["inr", "usd", "eur", "gbp", "jpy", "aud"] with
      | some c => some c
      | none =>
          if tables.any (fun t => t.rows.any (fun r => r.any cellHasSym)) then
            some "symbolic"
          else none

/-- The structured record returned by the Aggregator
(`structure_financial_data`, lines 268-273). -/
structure Structured where
  metrics : List (String × Option PyNum)
  yearly_metrics : List (String × List (String × PyNum))
  currency : Option String
  confidence : List (String × String)
deriving DecidableEq, Repr

/-- Text-fallback step of the Aggregator (lines 245-252) for one catalog
entry: if the metric key is not yet present, take the first text hit's
last numeric token; a successful parse inserts the value with confidence
`"medium"`. -/
def textStep (raw : String)
    (st : List (String × Option PyNum) × List (String × String))
    (p : String × List String) :
    List (String × Option PyNum) × List (String × String) :=
  if (dget st.1 p.1).isSome then st
  else
    match (find_metric_in_text raw p.2).head? with
    | none => st
    | some hit =>
        match hit.2.getLast? with
        | none => st
        | some nstr =>
            match parse_numeric nstr with
            | some v => (dinsert st.1 p.1 (some v), dinsert st.2 p.1 "medium")
            | none => st

/-- The whole text-fallback pass (lines 245-252). -/
def textPass (raw : String)
    (st : List (String × Option PyNum) × List (String × String)) :
    List (String × Option PyNum) × List (String × String) :=
  METRIC_KEYWORDS.foldl (textStep raw) st

/-- Latest-year boost step (lines 260-263): a yearly value overwrites the
metric and sets confidence `"high"` unless the key is present with
confidence already `"high"`. -/
def boostStep (st : List (String × Option PyNum) × List (String × String))
    (p : String × PyNum) :
    List (String × Option PyNum) × List (String × String) :=
  if dget st.1 p.1 = none ∨ dget st.2 p.1 ≠ some "high" then
    (dinsert st.1 p.1 (some p.2), dinsert st.2 p.1 "high")
  else st

/-- Latest-year boost pass (lines 257-263): when the yearly series is
non-empty, the lexicographically maximal year label's record is folded
through `boostStep`. -/
def yearlyBoost (yearly : List (String × List (String × PyNum)))
    (st : List (String × Option PyNum) × List (String × String)) :
    List (String × Option PyNum) × List (String × String) :=
  match maxKey (yearly.map Prod.fst) with
  | none => st
  | some latest => ((dget yearly latest).getD []).foldl boostStep st

/-- Success branch of the Aggregator (lines 236-273) given the table
metrics: seed metrics and `"high"` confidences from the table scan, run
the text fallback, extract and boost the yearly series, normalize to the
full catalog key set, and attach the currency. -/
def assembleStructured (raw : String) (tables : List Table)
    (tm : List (String × Option PyNum)) : Structured :=
  ⟨METRIC_KEYWORDS.map (fun p => (p.1,
      (dget (yearlyBoost (extract_multi_year_data tables)
        (textPass raw (tm, tm.map (fun q => (q.1, "high"))))).1 p.1).join)),
   extract_multi_year_data tables,
   find_currency_in_document raw tables,
   (yearlyBoost (extract_multi_year_data tables)
     (textPass raw (tm, tm.map (fun q => (q.1, "high"))))).2⟩

/-- Embedding of `modules/processor.py::structure_financial_data`
(lines 214-273): the table scan runs first, and its `IndexError` on a
zero-column table propagates; otherwise the record is assembled. -/
def structure_financial_data (raw_text : String) (tables : List Table) :
    Except Unit Structured :=
  (read_numbers_from_tables tables).map (assembleStructured raw_text tables)

/-- The successful result of an `Except`, if any. -/
def getOk {α : Type} : Except Unit α → Option α
  | .ok a => some a
  | .error _ => none

/-- The normalized metric value a successful Aggregator run assigns to a
key (`None` and a missing key both collapse to `none`, as `dict.get`). -/
def metricOf (e : Except Unit Structured) (k : String) : Option PyNum :=
  (getOk e).bind (fun s => (dget s.metrics k).join)

/-- The confidence a successful Aggregator run assigns to a key. -/
def confOf (e : Except Unit Structured) (k : String) : Option String :=
  (getOk e).bind (fun s => dget s.confidence k)

/-- The yearly record a successful Aggregator run stores under a year
label. -/
def yearOf (e : Except Unit Structured) (y : String) :
    Option (List (String × PyNum)) :=
  (getOk e).bind (fun s => dget s.yearly_metrics y)

/-- Invariant of the Aggregator's paired state: every confidence value is
`"high"` or `"medium"`, and every metric key present in the metrics dict
has a confidence entry. -/
def StInv (st : List (String × Option PyNum) × List (String × String)) : Prop :=
  (∀ p ∈ st.2, p.2 = "high" ∨ p.2 = "medium") ∧
  (∀ k, (dget st.1 k).isSome = true → (dget st.2 k).isSome = true)

/-- The claims' example table: header `["Metric","2022","2023"]`, one data
row `["Revenue","100","150"]` (as `process_documents` builds it, the header
lives in the DataFrame columns). -/
def tblC1 : Table := ⟨["Metric", "2022", "2023"], [["Revenue", "100", "150"]]⟩

/-- What the Aggregator actually produces on `tblC1` with empty text. -/
def recC1 : Structured :=
  ⟨[("revenue", some (pnMk 100 0)), ("gross_profit", none),
    ("operating_income", none), ("net_income", none), ("ebitda", none),
    ("total_assets", none), ("total_liabilities", none),
    ("cash_and_equivalents", none), ("cost_of_revenue", none),
    ("total_equity", none)],
   [], none, [("revenue", "high")]⟩

/-- What the Aggregator produces on no text and no tables. -/
def recEmpty : Structured :=
  ⟨[("revenue", none), ("gross_profit", none), ("operating_income", none),
    ("net_income", none), ("ebitda", none), ("total_assets", none),
    ("total_liabilities", none), ("cash_and_equivalents", none),
    ("cost_of_revenue", none), ("total_equity", none)],
   [], none, []⟩

/-- C2's failing table: the revenue row sits at index 1 so the row scan
reaches it; the year column comes from the header. -/
def tblC2 : Table := ⟨["Metric", "2022"], [["pad", "1"], ["Revenue", "(100)"]]⟩

/-- The claim's text-only input. -/
def txtC3 : String := "Total Revenue was $1,200 in FY23"

/-- A table on which both scanner passes fire for `revenue`: the header
pass reads 9 from the matching `"revenue"` column, the row pass reads 7
from the `"sales"`-labelled row, and 7 wins. -/
def tblC6 : Table := ⟨["revenue", "other"], [["sales", "7"], ["9", "x"]]⟩

/-- A table with zero columns, as `pd.read_excel` yields on an empty
sheet. -/
def emptyTable : Table := ⟨[], []⟩

/-- A ragged table: the first data row is short, the second longer than
needed; scanning it neither fails nor stops. -/
def tblC7 : Table := ⟨["Metric", "2022", "2023"], [["a"], ["Revenue", "100", "extra"]]⟩

/-- The currency policy as the claim states it: check `₹, $, €, £, ¥` in
that fixed order for containment in the text; failing that return the
uppercased first of `inr, usd, eur, gbp, jpy, aud` contained
case-insensitively; failing that `"symbolic"` when any table cell
contains `₹`, `$`, `€` or `£`; otherwise nothing. -/
def currency_policy_spec (text : String) (tables : List Table) : Option String :=
  if py_in "₹" text then some "₹"
  else if py_in "$" text then some "$"
  else if py_in "€" text then some "€"
  else if py_in "£" text then some "£"
  else if py_in "¥" text then some "¥"
  else if py_in "inr" (lowerS text) then some (upperS "inr")
  else if py_in "usd" (lowerS text) then some (upperS "usd")
  else if py_in "eur" (lowerS text) then some (upperS "eur")
  else if py_in "gbp" (lowerS text) then some (upperS "gbp")
  else if py_in "jpy" (lowerS text) then some (upperS "jpy")
  else if py_in "aud" (lowerS text) then some (upperS "aud")
  else if tables.any (fun t => t.rows.any (fun r => r.any cellHasSym)) then
    some "symbolic"
  else none

/-- A table whose numeric-looking cell `"1.2.3"` fails to parse: the
scanner assigns a `None` value while recording confidence `"high"`. -/
def tblC10 : Table := ⟨["Metric", "Val"], [["Revenue", "1.2.3"]]⟩

example : parse_numeric "(100)" = some (pnMk (-100) 0) := by decide

example : parse_numeric "1,234.50" = some (pnMk 12345 1) := by decide

example : parse_numeric "2M" = some (pnMk 2000000 0) := by decide

example : parse_numeric "" = none := by decide

example : parse_numeric "abc" = none := by decide

example : parse_numeric "(1.5M)" = some (pnMk (-1500000) 0) := by decide

example : parse_numeric "-" = none := by decide

example : parse_numeric "1.2.3" = none := by decide

example : parse_numeric "1e3" = some (pnMk 1000 0) := by decide

example : findNums "total revenue was $1,200 in fy23" = ["1,200", "23"] := by decide

example : pySplitlines "a\nb\n" = ["a", "b"] := by decide

example : pySplitlines "" = [] := by decide

example : cellPre "(100)" = "-" := by decide

example : cellPre "a(1)b(2)c" = "a-c" := by decide

example : cellPre "nan" = "" := by decide

example : parenSearch "(100)" = true := by decide

example : parenSearch "-" = false := by decide

example : pyYearSearch "2022" = some "2022" := by decide

example : pyYearSearch "2022-23" = some "2022" := by decide

example : pyYearSearch "FY 23" = some "FY 23" := by decide

example : pyYearSearch "Metric" = none := by decide

example : pyYearSearch "1999-00" = some "1999-00" := by decide

lemma dget_dinsert {α : Type} (m : List (String × α)) (k : String) (v : α)
    (x : String) :
    dget (dinsert m k v) x = if x = k then some v else dget m x := by
  induction m with
  | nil =>
      by_cases h : x = k
      · simp [dinsert, dget, h]
      · simp [dinsert, dget, h, Ne.symm h]
  | cons pr rest ih =>
      by_cases hp : pr.1 = k
      · by_cases h : x = k
        · simp [dinsert, dget, hp, h]
        · have hpx : ¬ pr.1 = x := fun hc => h (hp.symm.trans hc).symm
          simp [dinsert, dget, hp, h, Ne.symm h, hpx]
      · by_cases hx : pr.1 = x
        · have h : ¬ x = k := fun hc => hp (hx.trans hc)
          simp [dinsert, dget, hp, hx, h]
        · simp [dinsert, dget, hp, hx, ih]

lemma mem_dinsert {α : Type} (m : List (String × α)) (k : String) (v : α)
    (q : String × α) (hq : q ∈ dinsert m k v) : q ∈ m ∨ q = (k, v) := by
  induction m with
  | nil => simp [dinsert] at hq; simp [hq]
  | cons pr rest ih =>
      by_cases hp : pr.1 = k
      · simp [dinsert, hp] at hq
        rcases hq with hq | hq
        · right; simp [hq]
        · left; simp [hq]
      · simp [dinsert, hp] at hq
        rcases hq with hq | hq
        · left; simp [hq]
        · rcases ih hq with hh | hh
          · left; simp [hh]
          · right; exact hh

lemma dget_map_isSome {α β : Type} (L : List (String × α))
    (g : String × α → β) (k : String) :
    (dget (L.map (fun p => (p.1, g p))) k).isSome = (dget L k).isSome := by
  induction L with
  | nil => simp [dget]
  | cons pr rest ih => by_cases hp : pr.1 = k <;> simp [dget, hp, ih]

lemma dget_map_key_val {α β : Type} (L : List (String × α))
    (g : String → β) (k : String) (w : β)
    (h : dget (L.map (fun p => (p.1, g p.1))) k = some w) : w = g k := by
  induction L with
  | nil => simp [dget] at h
  | cons pr rest ih =>
      by_cases hp : pr.1 = k
      · simp [dget, hp] at h
        simp [← h, hp]
      · simp [dget, hp] at h
        exact ih h

lemma dget_none_of_not_mem {α : Type} (L : List (String × α)) (k : String)
    (h : k ∉ L.map Prod.fst) : dget L k = none := by
  induction L with
  | nil => simp [dget]
  | cons pr rest ih =>
      rw [List.map_cons] at h
      have h1 : ¬ pr.1 = k := fun hc => h (hc ▸ List.mem_cons_self _ _)
      have h2 : k ∉ rest.map Prod.fst := fun hc => h (List.mem_cons_of_mem _ hc)
      simp [dget, h1, ih h2]

lemma keys_filterMap_sub {α β : Type} (rest : List (String × α))
    (F : String → α → Option β) (x : String)
    (hx : x ∈ (rest.filterMap
      (fun p => (F p.1 p.2).map (fun v => (p.1, v)))).map Prod.fst) :
    x ∈ rest.map Prod.fst := by
  rcases List.mem_map.mp hx with ⟨e, he, hek⟩
  rcases List.mem_filterMap.mp he with ⟨pe, hpe, hfe⟩
  cases hFe : F pe.1 pe.2 with
  | none => rw [hFe] at hfe; simp at hfe
  | some ve =>
      rw [hFe] at hfe
      simp at hfe
      refine List.mem_map.mpr ⟨pe, hpe, ?_⟩
      rw [← hfe] at hek
      simpa using hek

lemma dget_filterMap {α β : Type} (L : List (String × α))
    (F : String → α → Option β) (k : String) (b : α)
    (hmem : (k, b) ∈ L) (hnd : (L.map Prod.fst).Nodup) :
    dget (L.filterMap (fun p => (F p.1 p.2).map (fun v => (p.1, v)))) k
      = F k b := by
  induction L with
  | nil => simp at hmem
  | cons pr rest ih =>
      rw [List.map_cons] at hnd
      obtain ⟨hnotin, hnd2⟩ := List.nodup_cons.mp hnd
      rcases List.mem_cons.mp hmem with hh | hh
      · have hk : pr.1 = k := by rw [← hh]
        have hb : pr.2 = b := by rw [← hh]
        subst hk
        subst hb
        cases hF : F pr.1 pr.2 with
        | none =>
            rw [List.filterMap_cons]
            simp only [hF, Option.map_none']
            rw [dget_none_of_not_mem _ _
              (fun hc => hnotin (keys_filterMap_sub rest F pr.1 hc))]
        | some v =>
            rw [List.filterMap_cons]
            simp only [hF, Option.map_some']
            simp [dget]
      · have hkrest : k ∈ rest.map Prod.fst :=
          List.mem_map.mpr ⟨(k, b), hh, rfl⟩
        have hpk : ¬ pr.1 = k := fun hc => hnotin (hc ▸ hkrest)
        cases hF : F pr.1 pr.2 with
        | none =>
            rw [List.filterMap_cons]
            simp only [hF, Option.map_none']
            exact ih hh hnd2
        | some v =>
            rw [List.filterMap_cons]
            simp only [hF, Option.map_some']
            simp [dget, hpk]
            exact ih hh hnd2

lemma foldl_inv {α β : Type} (P : β → Prop) (f : β → α → β)
    (hstep : ∀ b a, P b → P (f b a)) :
    ∀ (L : List α) (b : β), P b → P (L.foldl f b) := by
  intro L
  induction L with
  | nil => intro b hb; exact hb
  | cons a rest ih => intro b hb; exact ih (f b a) (hstep b a hb)

lemma stinv_insert (st : List (String × Option PyNum) × List (String × String))
    (k : String) (v : Option PyNum) (c : String)
    (hc : c = "high" ∨ c = "medium") (h : StInv st) :
    StInv (dinsert st.1 k v, dinsert st.2 k c) := by
  constructor
  · intro p hp
    rcases mem_dinsert _ _ _ _ hp with hmm | he
    · exact h.1 p hmm
    · rw [he]; exact hc
  · intro x hx
    rw [dget_dinsert] at hx
    rw [dget_dinsert]
    by_cases hxk : x = k
    · simp [hxk]
    · rw [if_neg hxk] at hx
      rw [if_neg hxk]
      exact h.2 x hx

lemma stinv_textStep (raw : String) (p : String × List String)
    (st : List (String × Option PyNum) × List (String × String))
    (h : StInv st) : StInv (textStep raw st p) := by
  unfold textStep
  cases h1 : (dget st.1 p.1).isSome
  · cases hh : (find_metric_in_text raw p.2).head? with
    | none => simpa [h1, hh] using h
    | some hit =>
        cases hl : hit.2.getLast? with
        | none => simpa [h1, hh, hl] using h
        | some nstr =>
            cases hp : parse_numeric nstr with
            | none => simpa [h1, hh, hl, hp] using h
            | some v =>
                simp only [h1, hh, hl, hp, Bool.false_eq_true, if_false]
                exact stinv_insert st p.1 (some v) "medium" (Or.inr rfl) h
  · simpa [h1] using h

lemma stinv_boostStep
    (st : List (String × Option PyNum) × List (String × String))
    (p : String × PyNum) (h : StInv st) : StInv (boostStep st p) := by
  unfold boostStep
  split
  · exact stinv_insert st p.1 (some p.2) "high" (Or.inl rfl) h
  · exact h

lemma stinv_init (tm : List (String × Option PyNum)) :
    StInv (tm, tm.map (fun p => (p.1, "high"))) := by
  constructor
  · intro p hp
    rcases List.mem_map.mp hp with ⟨q, hq, hqe⟩
    left
    rw [← hqe]
  · intro k hk
    rw [dget_map_isSome tm (fun _ => "high") k]
    exact hk

lemma stinv_textPass (raw : String)
    (st : List (String × Option PyNum) × List (String × String))
    (h : StInv st) : StInv (textPass raw st) :=
  foldl_inv StInv (textStep raw) (fun b a hb => stinv_textStep raw a b hb)
    METRIC_KEYWORDS st h

lemma stinv_yearlyBoost (yearly : List (String × List (String × PyNum)))
    (st : List (String × Option PyNum) × List (String × String))
    (h : StInv st) : StInv (yearlyBoost yearly st) := by
  unfold yearlyBoost
  cases maxKey (yearly.map Prod.fst) with
  | none => exact h
  | some latest =>
      exact foldl_inv StInv boostStep (fun b a hb => stinv_boostStep b a hb) _ st h

/-- C1 counterexample: on the claim's table the Multi-Year Reconciler
returns the empty series (its `row_idx == 0` guard skips the only data
row), so no year `"2022"` entry exists, and the Aggregator reports
revenue 100 — not 150. -/
theorem c1_counterexample :
    extract_multi_year_data [tblC1] = [] ∧
    yearOf (structure_financial_data "" [tblC1]) "2022" = none ∧
    metricOf (structure_financial_data "" [tblC1]) "revenue" = some (pnMk 100 0) ∧
    metricOf (structure_financial_data "" [tblC1]) "revenue" ≠ some (pnMk 150 0) := by
  refine ⟨rfl, rfl, rfl, ?_⟩
  decide

/-- C1 amended: on the claim's table `extract_multi_year_data` returns the
empty mapping (the first data row is skipped by the `row_idx == 0` guard,
the header being in the column labels), and `structure_financial_data`
sets `metrics["revenue"]` to 100 with confidence `"high"`, sourced from
the row-label table scan; `yearly_metrics` is empty. -/
theorem c1_amended_behavior :
    structure_financial_data "" [tblC1] = .ok recC1 := rfl

/-- C2 (code bug): the pre-pass `df_str.replace(r"\(.*\)", "-", regex=True)`
(line 169) replaces the whole cell `"(100)"` with `"-"`, which fails to
parse, so no value is stored for (`"2022"`, `"revenue"`) — the minus
re-application of lines 201-203 never sees a parenthesized cell and the
claimed `-100` is lost. -/
theorem c2_paren_cell_lost :
    cellPre "(100)" = "-" ∧
    parse_numeric "-" = none ∧
    parenSearch (cellPre "(100)") = false ∧
    extract_multi_year_data [tblC2] = [] := by
  refine ⟨rfl, rfl, rfl, rfl⟩

/-- C3 counterexample: on the claim's text the Aggregator does not report
revenue 1200. -/
theorem c3_counterexample :
    metricOf (structure_financial_data txtC3 []) "revenue" ≠ some (pnMk 1200 0) := by
  decide

/-- C3 amended: the last numeric substring of the single matching line is
`"23"` (from `"FY23"`), so the Aggregator reports revenue 23 with
confidence `"medium"`; the first hit carries the tokens
`["1,200", "23"]`. -/
theorem c3_amended_behavior :
    metricOf (structure_financial_data txtC3 []) "revenue" = some (pnMk 23 0) ∧
    confOf (structure_financial_data txtC3 []) "revenue" = some "medium" ∧
    (find_metric_in_text txtC3 ["revenue", "total revenue", "sales", "net sales"]).head?
      = some ("total revenue was $1,200 in fy23", ["1,200", "23"]) := by
  refine ⟨rfl, rfl, rfl⟩

/-- C4 counterexample: the Numeric Parser DOES return -1500000 on
`"(1.5M)"`, contrary to the claim. -/
theorem c4_counterexample :
    parse_numeric "(1.5M)" = some (pnMk (-1500000) 0) := rfl

/-- C4 amended: parenthesis handling rewrites `"(1.5M)"` to `"-1.5M"`
before the suffix check, and the suffix branch parses the signed prefix
`"-1.5"` and scales it by 1e6, so the sign survives and the result is
-1500000. -/
theorem c4_amended_behavior :
    parse_numeric "(1.5M)" = (pyFloat "-1.5").map (pnScale 1000000) ∧
    pyFloat "-1.5" = some (pnMk (-15) 1) ∧
    parse_numeric "(1.5M)" = some (pnMk (-1500000) 0) := by
  refine ⟨rfl, rfl, rfl⟩

/-- C5: every successful run of the Aggregator returns a metrics mapping
whose keys are exactly the catalog's keys in order; a metric with no
extracted value is present with an absent value, never a missing key. -/
theorem c5_metrics_keys_total (raw : String) (tables : List Table)
    (s : Structured) (h : structure_financial_data raw tables = .ok s) :
    s.metrics.map Prod.fst =
      ["revenue", "gross_profit", "operating_income", "net_income", "ebitda",
       "total_assets", "total_liabilities", "cash_and_equivalents",
       "cost_of_revenue", "total_equity"] := by
  cases hr : read_numbers_from_tables tables with
  | error e => simp [structure_financial_data, hr, Except.map] at h
  | ok tm =>
      simp only [structure_financial_data, hr, Except.map, Except.ok.injEq] at h
      subst h
      rfl

/-- C5 witness at the empty input. -/
theorem c5_metrics_keys_total_witness :
    recEmpty.metrics.map Prod.fst =
      ["revenue", "gross_profit", "operating_income", "net_income", "ebitda",
       "total_assets", "total_liabilities", "cash_and_equivalents",
       "cost_of_revenue", "total_equity"] :=
  c5_metrics_keys_total "" [] recEmpty rfl

/-- C6: in a single table where both the column-header pass and the
row-label pass assign a value for the same metric, the retained value is
the row-label one — the row pass runs after the column pass and its
assignment overwrites.  The `Nodup` hypothesis on lower-cased headers
scopes the model's positional column access to tables where it agrees
with the source's by-label access. -/
theorem c6_row_label_pass_wins (t : Table) (metric : String)
    (kws : List String) (p q : Option PyNum)
    (hm : (metric, kws) ∈ METRIC_KEYWORDS)
    (hh : t.header ≠ [])
    (hnd : (t.header.map lowerS).Nodup)
    (hcol : colAssign kws t = some q)
    (hrow : rowAssign kws t = some p) :
    (getOk (read_numbers_from_tables [t])).bind (fun d => dget d metric)
      = some p := by
  have hne : t.header.isEmpty = false := by
    cases hd : t.header with
    | nil => exact absurd hd hh
    | cons a l => rfl
  have hany : ([t].any fun tb => tb.header.isEmpty) = false := by
    simp [List.any, hne]
  simp only [read_numbers_from_tables, hany, Bool.false_eq_true, if_false,
    getOk, Option.bind]
  rw [dget_filterMap METRIC_KEYWORDS
    (fun _ kws2 => ([t].filterMap (tableAssign kws2)).getLast?) metric kws hm
    (by decide)]
  simp [tableAssign, hrow]

/-- C6 witness on `tblC6`. -/
theorem c6_row_label_pass_wins_witness :
    (getOk (read_numbers_from_tables [tblC6])).bind (fun d => dget d "revenue")
      = some (some (pnMk 7 0)) :=
  c6_row_label_pass_wins tblC6 "revenue"
    ["revenue", "total revenue", "sales", "net sales"]
    (some (pnMk 7 0)) (some (pnMk 9 0))
    (by decide) (by decide) (by decide) (by decide) (by decide)

/-- C7 counterexample: on a zero-column table `df2.iloc[:, 0]` raises
`IndexError` inside `read_numbers_from_tables` and the Aggregator
propagates it, so `structure_financial_data` does not return a record. -/
theorem c7_counterexample :
    structure_financial_data "" [emptyTable] = .error () := rfl

/-- C7 amended: for every input in which each table has at least one
column, `structure_financial_data` raises nothing and returns a
structured record; ragged rows are tolerated (out-of-range cells are
skipped, never an error). -/
theorem c7_amended_no_raise (raw : String) (tables : List Table)
    (h : ∀ t ∈ tables, t.header ≠ []) :
    (getOk (structure_financial_data raw tables)).isSome = true := by
  have hany : (tables.any fun t => t.header.isEmpty) = false := by
    cases hb : tables.any fun t => t.header.isEmpty
    · rfl
    · exfalso
      obtain ⟨t, ht, hp⟩ := List.any_eq_true.mp hb
      have hnil : t.header = [] := by
        cases hd : t.header with
        | nil => rfl
        | cons a l => rw [hd] at hp; simp [List.isEmpty] at hp
      exact h t ht hnil
  simp [structure_financial_data, read_numbers_from_tables, hany, getOk,
    Except.map]

/-- C7 witness on a ragged table. -/
theorem c7_amended_no_raise_witness :
    (getOk (structure_financial_data "x" [tblC7])).isSome = true :=
  c7_amended_no_raise "x" [tblC7] (by decide)

/-- C8: `find_currency_in_document` implements exactly the claimed
ordered policy (list order wins, not first occurrence in the text), and
the claim's two examples hold: rupee-symbol text yields `"₹"`, and text
containing only `"USD"` yields `"USD"`. -/
theorem c8_currency_detection :
    (∀ (text : String) (tables : List Table),
      find_currency_in_document text tables = currency_policy_spec text tables) ∧
    find_currency_in_document "₹12,00,000" [] = some "₹" ∧
    find_currency_in_document "USD" [] = some "USD" := by
  refine ⟨?_, rfl, rfl⟩
  intro text tables
  simp only [find_currency_in_document, currency_policy_spec, loopSyms, loopCodes]
  cases h1 : py_in "₹" text <;> simp only [h1, if_true, if_false, Bool.false_eq_true]
  cases h2 : py_in "$" text <;> simp only [h2, if_true, if_false, Bool.false_eq_true]
  cases h3 : py_in "€" text <;> simp only [h3, if_true, if_false, Bool.false_eq_true]
  cases h4 : py_in "£" text <;> simp only [h4, if_true, if_false, Bool.false_eq_true]
  cases h5 : py_in "¥" text <;> simp only [h5, if_true, if_false, Bool.false_eq_true]
  cases h6 : py_in "inr" (lowerS text) <;>
    simp only [h6, if_true, if_false, Bool.false_eq_true]
  cases h7 : py_in "usd" (lowerS text) <;>
    simp only [h7, if_true, if_false, Bool.false_eq_true]
  cases h8 : py_in "eur" (lowerS text) <;>
    simp only [h8, if_true, if_false, Bool.false_eq_true]
  cases h9 : py_in "gbp" (lowerS text) <;>
    simp only [h9, if_true, if_false, Bool.false_eq_true]
  cases h10 : py_in "jpy" (lowerS text) <;>
    simp only [h10, if_true, if_false, Bool.false_eq_true]
  cases h11 : py_in "aud" (lowerS text) <;>
    simp only [h11, if_true, if_false, Bool.false_eq_true]

/-- C9: the Aggregator is a pure function of its inputs — it threads no
hidden state, so two invocations on the same `(raw_text, tables)` pair
return identical structured records. -/
theorem c9_deterministic (raw : String) (tables : List Table) :
    structure_financial_data raw tables = structure_financial_data raw tables := rfl

set_option maxHeartbeats 2000000 in
/-- C10 counterexample: after running on `tblC10`, `"revenue"` has a
confidence entry (`"high"`) while its metric value is absent, refuting
the claimed equivalence between confidence entries and present values. -/
theorem c10_counterexample :
    confOf (structure_financial_data "" [tblC10]) "revenue" = some "high" ∧
    metricOf (structure_financial_data "" [tblC10]) "revenue" = none := by
  refine ⟨rfl, rfl⟩

lemma assemble_confidence (raw : String) (tables : List Table)
    (tm : List (String × Option PyNum)) :
    (assembleStructured raw tables tm).confidence =
      (yearlyBoost (extract_multi_year_data tables)
        (textPass raw (tm, tm.map (fun q => (q.1, "high"))))).2 := rfl

lemma assemble_metrics (raw : String) (tables : List Table)
    (tm : List (String × Option PyNum)) :
    (assembleStructured raw tables tm).metrics =
      METRIC_KEYWORDS.map (fun p => (p.1,
        (dget (yearlyBoost (extract_multi_year_data tables)
          (textPass raw (tm, tm.map (fun q => (q.1, "high"))))).1 p.1).join)) := rfl

lemma metrics_paired (Y : List (String × Option PyNum) × List (String × String))
    (hinv : StInv Y) (k : String) (v : PyNum)
    (hk : dget (METRIC_KEYWORDS.map (fun p => (p.1, (dget Y.1 p.1).join))) k
      = some (some v)) : (dget Y.2 k).isSome = true := by
  have hval := dget_map_key_val METRIC_KEYWORDS
    (fun x => (dget Y.1 x).join) k (some v) hk
  have hj : dget Y.1 k = some (some v) := Option.join_eq_some.mp hval.symm
  exact hinv.2 k (by rw [hj]; rfl)

/-- C10 amended: every confidence value is `"high"` or `"medium"`, and
every metric key with a present value has a confidence entry; the
converse fails (see the counterexample) because the table pass stores
`parse_numeric`'s result even when it is `None`. -/
theorem c10_amended_invariant (raw : String) (tables : List Table)
    (s : Structured) (h : structure_financial_data raw tables = .ok s) :
    (∀ p ∈ s.confidence, p.2 = "high" ∨ p.2 = "medium") ∧
    (∀ k v, dget s.metrics k = some (some v) →
      (dget s.confidence k).isSome = true) := by
  cases hr : read_numbers_from_tables tables with
  | error e => simp [structure_financial_data, hr, Except.map] at h
  | ok tm =>
      simp only [structure_financial_data, hr, Except.map, Except.ok.injEq] at h
      subst h
      have h1 := stinv_textPass raw (tm, tm.map (fun q => (q.1, "high")))
        (stinv_init tm)
      have hinv := stinv_yearlyBoost (extract_multi_year_data tables) _ h1
      constructor
      · intro p hp
        rw [assemble_confidence] at hp
        exact hinv.1 p hp
      · intro k v hk
        rw [assemble_metrics] at hk
        rw [assemble_confidence]
        exact metrics_paired _ hinv k v hk

/-- C10 witness on the claims' example table, where revenue is present
with confidence `"high"`. -/
theorem c10_amended_invariant_witness :
    (∀ p ∈ recC1.confidence, p.2 = "high" ∨ p.2 = "medium") ∧
    (∀ k v, dget recC1.metrics k = some (some v) →
      (dget recC1.confidence k).isSome = true) :=
  c10_amended_invariant "" [tblC1] recC1 rfl
